import Mathlib

/-!
Verification of the `ServiceManager` backend of `src/main.py`
(`mcp_srv_manager`): a supervisor for user-defined background services.

The Python class keeps three pieces of state:
  * `services : list[dict]`   — the registry of `{"name", "command"}` records;
  * `processes : dict[str, Popen]` — the live-process table;
  * `errors : dict[str, str]` — the per-service ErrorState table.

We embed that state shallowly.  Python dicts are modelled as association
lists with dict semantics (`insertA` overwrites in place, `eraseA` removes
the key); a `subprocess.Popen` handle is modelled by its pid together with
the result of the one `poll()` observation the operation under study makes
(`none` = still alive, `some c` = exited with code `c`).  External effects
(`lsof` port probing, `ps` duplicate-command scanning, `Popen` spawning,
signal delivery inside `stop`) are parameters: a `Host` record of oracle
functions and a `StopOutcome` describing which `except` arm of `stop` runs.
-/

set_option autoImplicit false

namespace SvcMgr

/-- One registry record, Python dict `{"name": ..., "command": ...}`. -/
structure Service where
  name : String
  command : String
deriving DecidableEq, Repr

/-- A `subprocess.Popen` handle as the supervisor observes it during one
operation: its pid and what `poll()` returns at that observation
(`none` = running, `some c` = exited, `c` is `returncode`). -/
structure Proc where
  pid : Nat
  exitCode : Option Int
deriving DecidableEq, Repr

/-- Dict lookup `d.get(k)` on the association-list model. -/
def lookupA {α : Type} (l : List (String × α)) (k : String) : Option α :=
  match l with
  | [] => none
  | p :: rest => if p.1 == k then some p.2 else lookupA rest k

/-- Dict assignment `d[k] = v`: overwrite in place if the key is present,
otherwise append (Python dicts preserve insertion order). -/
def insertA {α : Type} (l : List (String × α)) (k : String) (v : α) : List (String × α) :=
  if l.any (fun p => p.1 == k) then
    l.map (fun p => if p.1 == k then (k, v) else p)
  else
    l ++ [(k, v)]

/-- Dict removal `d.pop(k, None)`: drop every binding of the key. -/
def eraseA {α : Type} (l : List (String × α)) (k : String) : List (String × α) :=
  l.filter (fun p => p.1 != k)

/-- In-memory state of a `ServiceManager` instance. -/
structure ManagerState where
  services : List Service
  processes : List (String × Proc)
  errors : List (String × String)
deriving DecidableEq, Repr

/-! ## Conflict Detector: `_extract_port` (src/main.py lines 151-155)

`re.search(r'(?:--port[=\s]|-p\s)(\d+)', command)`: scan positions left to
right; at each position try the alternative `--port` followed by `=` or a
whitespace character, else the alternative `-p` followed by whitespace, each
followed by a greedy run of at least one digit; return `int` of the first
captured digit run.  `\s` and `\d` are modelled at their ASCII meaning. -/

/-- ASCII whitespace recognised by the regex class `\s`. -/
def isPySpace (c : Char) : Bool :=
  c == ' ' || c == '\t' || c == '\n' || c == '\x0d' || c == '\x0b' || c == '\x0c'

/-- Regex alternative `--port[=\s](\d+)` anchored at the head of the list. -/
def matchAlt1 : List Char → Option (List Char)
  | '-' :: '-' :: 'p' :: 'o' :: 'r' :: 't' :: c :: rest =>
    if c == '=' || isPySpace c then
      let ds := rest.takeWhile Char.isDigit
      if ds.isEmpty then none else some ds
    else none
  | _ => none

/-- Regex alternative `-p\s(\d+)` anchored at the head of the list. -/
def matchAlt2 : List Char → Option (List Char)
  | '-' :: 'p' :: c :: rest =>
    if isPySpace c then
      let ds := rest.takeWhile Char.isDigit
      if ds.isEmpty then none else some ds
    else none
  | _ => none

/-- The whole pattern anchored at the head: alternatives tried in order. -/
def matchPortAt (s : List Char) : Option (List Char) :=
  match matchAlt1 s with
  | some ds => some ds
  | none => matchAlt2 s

/-- `re.search`: leftmost position whose anchored match succeeds. -/
def searchPort : List Char → Option (List Char)
  | [] => none
  | c :: rest =>
    match matchPortAt (c :: rest) with
    | some ds => some ds
    | none => searchPort rest

/-- `int` of a digit run. -/
def digitsToNat (ds : List Char) : Nat :=
  ds.foldl (fun n c => n * 10 + (c.toNat - 48)) 0

/-- `ServiceManager._extract_port` (src/main.py lines 151-155). -/
def extract_port (command : String) : Option Nat :=
  (searchPort command.toList).map digitsToNat

/-! ## External world oracles

`_check_port_conflict` and `_find_same_cmd_processes` shell out to `lsof`
and `ps`; both already swallow every failure and return `None` (fail-open),
so their results are modelled as oracle functions returning `Option String`
(`none` = no conflict detected; in the source a `some` result is always a
non-empty PID list, so Python truthiness of the result coincides with the
`Option` match).  `start` re-runs both probes when the child dies inside
the 0.8 s grace window; the re-runs happen later in real time, so they get
their own oracle fields. -/

/-- Result of the `try:` block of `start` around `subprocess.Popen`:
either some step raised (`exn msg`, caught by `except Exception as e`), or
a child was spawned with the given pid, `early` is its `poll()` result
after the 0.8 s sleep, and the two strings are the captured stderr/stdout
file contents. -/
inductive SpawnResult where
  | exn (msg : String)
  | ok (pid : Nat) (early : Option Int) (stderrContent : String) (stdoutContent : String)
deriving Repr

/-- Oracles for host introspection and process spawning. -/
structure Host where
  portBlocker : Nat → Option String
  sameCmd : String → Option String
  portBlockerRecheck : Nat → Option String
  sameCmdRecheck : String → Option String
  spawn : String → SpawnResult

/-- Which arm of `stop`'s `try/except` runs when the tracked process is
still alive at entry (src/main.py lines 327-348). -/
inductive StopOutcome where
  | graceful
  | timeoutThenKill
  | processGone
  | otherError (msg : String)
deriving DecidableEq, Repr

/-! ## Python string helpers used in `start`'s diagnostic message -/

/-- Python `str.strip()` (ASCII whitespace). -/
def pyStrip (s : String) : String :=
  String.mk (((s.toList.dropWhile isPySpace).reverse.dropWhile isPySpace).reverse)

/-- Python `s[-n:]`. -/
def takeTail (s : String) (n : Nat) : String :=
  String.mk ((s.toList.reverse.take n).reverse)

/-- Python `s[:n]`. -/
def takeHead (s : String) (n : Nat) : String :=
  String.mk (s.toList.take n)

/-! ## Process Supervisor (src/main.py lines 227-371) -/

/-- `ServiceManager._find` (src/main.py lines 413-417): first registry
record with the given name. -/
def find : List Service → String → Option Service
  | [], _ => none
  | svc :: rest, name => if svc.name == name then some svc else find rest name

/-- The guard of `start`'s early return (line 228): the name is tracked and
its `poll()` observation says the process is still alive. -/
def aliveIn (procs : List (String × Proc)) (name : String) : Bool :=
  match lookupA procs name with
  | some proc => proc.exitCode.isNone
  | none => false

/-- Result of one `start` call: the returned boolean, the new state, and —
as a model-level observation of the `Popen` effect — the pid of the child
spawned during the call, if any. -/
structure StartResult where
  ok : Bool
  state : ManagerState
  spawned : Option Nat
deriving DecidableEq, Repr

/-- Steps 2 and onward of `start` (src/main.py lines 246-316): the
duplicate-command check, the spawn, and the 0.8 s grace-window check.
`portT` is the extracted port after Python truthiness (`some p` with
`p ≠ 0` exactly when `if port:` is taken). -/
def startSpawn (host : Host) (st : ManagerState) (name : String) (svc : Service)
    (portT : Option Nat) : StartResult :=
  match host.sameCmd svc.command with
  | some existing =>
    let msg := "Process running: PID " ++ existing
    { ok := false, state := { st with errors := insertA st.errors name msg },
      spawned := none }
  | none =>
    match host.spawn svc.command with
    | .exn msg =>
      { ok := false, state := { st with errors := insertA st.errors name msg },
        spawned := none }
    | .ok pid early stderrContent stdoutContent =>
      match early with
      | some code =>
        let stderrOut := takeTail (pyStrip stderrContent) 300
        let stdoutOut := takeTail (pyStrip stdoutContent) 300
        let msg0 := "Exit code " ++ toString code
        let combined := pyStrip (stderrOut ++ " " ++ stdoutOut)
        let msg1 := if combined == "" then msg0
          else msg0 ++ " — " ++ takeHead combined 300
        let msg2 :=
          match portT with
          | some p =>
            match host.portBlockerRecheck p with
            | some blocker =>
              msg1 ++ " | port " ++ toString p ++ " held by PID " ++ blocker
            | none => msg1
          | none => msg1
        let msg3 :=
          match host.sameCmdRecheck svc.command with
          | some existing => msg2 ++ " | running: " ++ existing
          | none => msg2
        { ok := false, state := { st with errors := insertA st.errors name msg3 },
          spawned := some pid }
      | none =>
        { ok := true,
          state := { st with processes := insertA st.processes name ⟨pid, none⟩ },
          spawned := some pid }

/-- `start` after the early return, the `_find` lookup, and the
`errors.pop` (the state passed in already has the error cleared):
the port check of src/main.py lines 238-244, then `startSpawn`.
`if port:` is Python truthiness, so an extracted port `0` skips the
check. -/
def startChecked (host : Host) (st : ManagerState) (name : String) (svc : Service) :
    StartResult :=
  let portT : Option Nat :=
    match extract_port svc.command with
    | some p => if p == 0 then none else some p
    | none => none
  match portT with
  | some p =>
    match host.portBlocker p with
    | some blocker =>
      let msg := "Port " ++ toString p ++ " used by " ++ blocker
      { ok := false, state := { st with errors := insertA st.errors name msg },
        spawned := none }
    | none => startSpawn host st name svc portT
  | none => startSpawn host st name svc portT

/-- `ServiceManager.start` (src/main.py lines 227-316). -/
def start (host : Host) (st : ManagerState) (name : String) : StartResult :=
  if aliveIn st.processes name then
    { ok := true, state := st, spawned := none }
  else
    match find st.services name with
    | none =>
      { ok := false
        state := { st with errors := insertA st.errors name "Service not found" }
        spawned := none }
    | some svc =>
      startChecked host { st with errors := eraseA st.errors name } name svc

/-- `ServiceManager.stop` (src/main.py lines 318-349).  `errors.pop`
happens first on every path; the `finally:` clause pops the live handle on
every path that enters the `try:`; only the `except Exception` arm records
an error and returns `False`. -/
def stop (out : StopOutcome) (st : ManagerState) (name : String) :
    Bool × ManagerState :=
  match lookupA st.processes name with
  | none => (true, { st with errors := eraseA st.errors name })
  | some proc =>
    match proc.exitCode with
    | some _ =>
      (true, { st with errors := eraseA st.errors name,
                       processes := eraseA st.processes name })
    | none =>
      match out with
      | .otherError msg =>
        (false, { st with errors := insertA (eraseA st.errors name) name msg,
                          processes := eraseA st.processes name })
      | _ =>
        (true, { st with errors := eraseA st.errors name,
                         processes := eraseA st.processes name })

/-- `ServiceManager.is_running` (src/main.py lines 356-365): liveness query
that also reconciles a process that exited on its own. -/
def is_running (st : ManagerState) (name : String) : Bool × ManagerState :=
  match lookupA st.processes name with
  | none => (false, st)
  | some proc =>
    match proc.exitCode with
    | none => (true, st)
    | some code =>
      let errs :=
        if (lookupA st.errors name).isNone then
          insertA st.errors name ("Process exited with code " ++ toString code)
        else st.errors
      (false, { st with errors := errs, processes := eraseA st.processes name })

/-- `ServiceManager.get_pid` (src/main.py lines 367-371). -/
def get_pid (st : ManagerState) (name : String) : Option Nat :=
  match lookupA st.processes name with
  | some proc => if proc.exitCode.isNone then some proc.pid else none
  | none => none

/-- `ServiceManager.get_error` (src/main.py lines 373-374). -/
def get_error (st : ManagerState) (name : String) : Option String :=
  lookupA st.errors name

/-! ## Service Registry persistence (src/main.py lines 121-149)

`save_config` writes `json.dump({"services": self.services})` to the config
file and `load_config` reads it back with `data.get("services", [])`.  The
file is modelled at the JSON-value level: an absent file is `none`, a
present one holds a `Json` tree.  The Python code stores the parsed dicts
unvalidated; since our state carries `Service` records, `load_config`
decodes each `{"name", "command"}` object back into a record (objects of
any other shape, which the source would keep and crash on later, are
dropped). -/

/-- JSON values as relevant to the config file. -/
inductive Json where
  | str (s : String)
  | num (n : Int)
  | arr (xs : List Json)
  | obj (fields : List (String × Json))

/-- Encoding of one registry record, as `json.dump` lays it out. -/
def svcToJson (s : Service) : Json :=
  .obj [("name", .str s.name), ("command", .str s.command)]

/-- Decoding of one registry record (dict accesses `svc["name"]`,
`svc["command"]`). -/
def jsonToSvc : Json → Option Service
  | .obj fields =>
    match lookupA fields "name", lookupA fields "command" with
    | some (.str n), some (.str c) => some ⟨n, c⟩
    | _, _ => none
  | _ => none

/-- `ServiceManager.save_config` (src/main.py lines 129-131): the JSON
value written to the config file. -/
def save_config (st : ManagerState) : Json :=
  .obj [("services", .arr (st.services.map svcToJson))]

/-- `ServiceManager.load_config` (src/main.py lines 121-127): absent file
means an empty registry; otherwise take the top-level key `"services"`
with default `[]`. -/
def load_config (file : Option Json) : List Service :=
  match file with
  | none => []
  | some (.obj fields) =>
    match lookupA fields "services" with
    | some (.arr xs) => xs.filterMap jsonToSvc
    | _ => []
  | some _ => []

/-- `ServiceManager.add_service` (src/main.py lines 133-137): append the
record, persist, and return the new state together with the written
file value. -/
def add_service (st : ManagerState) (name : String) (command : String) :
    ManagerState × Json :=
  let st1 : ManagerState := { st with services := st.services ++ [⟨name, command⟩] }
  (st1, save_config st1)

/-- `ServiceManager.remove_service` (src/main.py lines 144-149): with the
Python guard `0 <= index < len(self.services)`, stop the named service,
drop the record, persist; otherwise do nothing.  `file` is the config
file before the call; the second component is the file after it. -/
def remove_service (out : StopOutcome) (st : ManagerState) (file : Option Json)
    (index : Int) : ManagerState × Option Json :=
  if 0 ≤ index ∧ index < (st.services.length : Int) then
    match st.services.get? index.toNat with
    | some svc =>
      let st1 := (stop out st svc.name).2
      let st2 : ManagerState := { st1 with services := st1.services.eraseIdx index.toNat }
      (st2, some (save_config st2))
    | none => (st, file)
  else
    (st, file)

/-! ## Concrete example hosts and states (used by witnesses and
counterexamples below) -/

/-- Example host whose port probe reports a blocker on every port. -/
def hostBlocked : Host :=
  { portBlocker := fun _ => some "99(nginx)"
    sameCmd := fun _ => none
    portBlockerRecheck := fun _ => none
    sameCmdRecheck := fun _ => none
    spawn := fun _ => .exn "never reached" }

/-- Example host that detects no conflicts and spawns successfully. -/
def hostBenign : Host :=
  { portBlocker := fun _ => none
    sameCmd := fun _ => none
    portBlockerRecheck := fun _ => none
    sameCmdRecheck := fun _ => none
    spawn := fun _ => .ok 5 none "" "" }

/-- Example state: one service whose handle is stale (process already
exited), no errors. -/
def stStale : ManagerState :=
  { services := [⟨"web", "serve --port=80"⟩]
    processes := [("web", ⟨41, some 1⟩)]
    errors := [] }

/-- Example state: one service, no handles, no errors. -/
def stFresh : ManagerState :=
  { services := [⟨"api", "run --port 9"⟩], processes := [], errors := [] }

/-- Example state: one service with a live handle and a leftover error. -/
def stRunningErr : ManagerState :=
  { services := [⟨"web", "cmd"⟩]
    processes := [("web", ⟨7, none⟩)]
    errors := [("web", "old failure")] }

/-- Example state: one service, stopped, with a leftover error. -/
def stStopped : ManagerState :=
  { services := [⟨"web", "cmd"⟩], processes := [], errors := [("web", "old")] }

/-- Example state: nothing registered at all. -/
def stEmpty : ManagerState :=
  { services := [], processes := [], errors := [] }

/-- Example state: a live tracked handle, no registry entry needed. -/
def stLive : ManagerState :=
  { services := [], processes := [("w", ⟨3, none⟩)], errors := [] }

/-- Example state: a tracked handle whose process exited with code 2. -/
def stExited : ManagerState :=
  { services := [], processes := [("w", ⟨3, some 2⟩)], errors := [] }

/-- Example state: two services, the second with a live handle. -/
def stTwo : ManagerState :=
  { services := [⟨"a", "x"⟩, ⟨"b", "y"⟩]
    processes := [("b", ⟨9, none⟩)]
    errors := [] }

/-! ## Lemmas about the dict model -/

theorem lookupA_eraseA {α : Type} (l : List (String × α)) (k : String) :
    lookupA (eraseA l k) k = none := by
  induction l with
  | nil => rfl
  | cons p rest ih =>
    simp only [eraseA, List.filter_cons] at *
    by_cases h : p.1 = k
    · simp [h, ih]
    · simp [lookupA, h, ih]

theorem eraseA_idem {α : Type} (l : List (String × α)) (k : String) :
    eraseA (eraseA l k) k = eraseA l k := by
  induction l with
  | nil => rfl
  | cons p rest ih =>
    simp only [eraseA, List.filter_cons] at *
    by_cases h : p.1 = k
    · simp [h, ih]
    · simp [List.filter_cons, h, ih]

theorem lookupA_map_overwrite {α : Type} (l : List (String × α)) (k : String) (v : α)
    (h : l.any (fun p => p.1 == k) = true) :
    lookupA (l.map (fun p => if p.1 == k then (k, v) else p)) k = some v := by
  induction l with
  | nil => simp at h
  | cons p rest ih =>
    by_cases hp : (p.1 == k) = true
    · simp only [List.map_cons, hp, if_true, lookupA, beq_self_eq_true]
    · have hb : (p.1 == k) = false := by simpa using hp
      have hr : rest.any (fun q => q.1 == k) = true := by
        simpa [List.any_cons, hb] using h
      simp only [List.map_cons, hb, Bool.false_eq_true, if_false, lookupA]
      exact ih hr

theorem lookupA_append_absent {α : Type} (l : List (String × α)) (k : String) (v : α)
    (h : l.any (fun p => p.1 == k) = false) :
    lookupA (l ++ [(k, v)]) k = some v := by
  induction l with
  | nil => simp [lookupA]
  | cons p rest ih =>
    rw [List.any_cons, Bool.or_eq_false_iff] at h
    simp only [List.cons_append, lookupA, h.1, Bool.false_eq_true, if_false]
    exact ih h.2

theorem lookupA_insertA {α : Type} (l : List (String × α)) (k : String) (v : α) :
    lookupA (insertA l k v) k = some v := by
  unfold insertA
  by_cases h : l.any (fun p => p.1 == k) = true
  · simp only [h, if_true]
    exact lookupA_map_overwrite l k v h
  · have hf : l.any (fun p => p.1 == k) = false := by
      cases hx : l.any (fun p => p.1 == k) with
      | false => rfl
      | true => exact absurd hx h
    simp only [hf, Bool.false_eq_true, if_false]
    exact lookupA_append_absent l k v hf

/-- `stop` never touches the registry. -/
theorem stop_services (out : StopOutcome) (st : ManagerState) (name : String) :
    (stop out st name).2.services = st.services := by
  cases hl : lookupA st.processes name with
  | none => simp [stop, hl]
  | some proc =>
    cases hc : proc.exitCode with
    | some c => simp [stop, hl, hc]
    | none => cases out <;> simp [stop, hl, hc]

/-- After any `stop`, the name is gone from the live-process table. -/
theorem stop_processes_lookup (out : StopOutcome) (st : ManagerState) (name : String) :
    lookupA (stop out st name).2.processes name = none := by
  cases hl : lookupA st.processes name with
  | none => simp [stop, hl]
  | some proc =>
    cases hc : proc.exitCode with
    | some c => simpa [stop, hl, hc] using lookupA_eraseA st.processes name
    | none =>
      cases out <;> simpa [stop, hl, hc] using lookupA_eraseA st.processes name

theorem findSome_map {α β γ : Type} (g : α → β) (f : β → Option γ) (l : List α) :
    (l.map g).findSome? f = l.findSome? (fun a => f (g a)) := by
  induction l with
  | nil => rfl
  | cons a as ih =>
    simp only [List.map_cons, List.findSome?]
    cases f (g a) <;> simp [ih]

/-- `searchPort` returns the match anchored at the leftmost position where
one is anchored, and `none` when no position matches. -/
theorem searchPort_eq_first_match (l : List Char) :
    searchPort l
      = (List.range l.length).findSome? (fun i => matchPortAt (l.drop i)) := by
  induction l with
  | nil => rfl
  | cons c rest ih =>
    rw [List.length_cons, List.range_succ_eq_map]
    cases hm : matchPortAt (c :: rest) with
    | some ds => simp [searchPort, hm, List.findSome?]
    | none =>
      simp only [searchPort, hm, List.findSome?, List.drop_zero]
      rw [findSome_map]
      exact ih

/-- Decoding inverts encoding on every registry list. -/
theorem filterMap_jsonToSvc_map (l : List Service) :
    (l.map svcToJson).filterMap jsonToSvc = l := by
  induction l with
  | nil => rfl
  | cons s rest ih =>
    have hs : jsonToSvc (svcToJson s) = some s := rfl
    simp only [List.map_cons, List.filterMap_cons, hs, ih]

/-! ## Claims -/

/-- C2: for every service name tracked in the live-process table with a
still-alive process, `start` returns success immediately, launches no
child process, and leaves the whole state — in particular the
live-process table — unchanged. -/
theorem C2_start_idempotent (host : Host) (st : ManagerState) (name : String)
    (proc : Proc) (hl : lookupA st.processes name = some proc)
    (halive : proc.exitCode = none) :
    start host st name = { ok := true, state := st, spawned := none } := by
  have ha : aliveIn st.processes name = true := by
    simp [aliveIn, hl, halive]
  simp [start, ha]

/-- C2 witness: a concrete alive tracked service is a no-op for `start`. -/
theorem C2_witness :
    start hostBenign stLive "w" = { ok := true, state := stLive, spawned := none } :=
  C2_start_idempotent hostBenign stLive "w" ⟨3, none⟩ rfl rfl

/-- C3: for a tracked process that has exited on its own with code `code`,
the next `is_running` call returns `false`, removes the live handle, and —
when no ErrorState was already set — records
`"Process exited with code <code>"`. -/
theorem C3_reconciliation (st : ManagerState) (name : String) (proc : Proc) (code : Int)
    (hl : lookupA st.processes name = some proc)
    (hc : proc.exitCode = some code)
    (herr : lookupA st.errors name = none) :
    (is_running st name).1 = false
    ∧ lookupA (is_running st name).2.processes name = none
    ∧ lookupA (is_running st name).2.errors name
        = some ("Process exited with code " ++ toString code) := by
  refine ⟨?_, ?_, ?_⟩ <;>
    simp [is_running, hl, hc, herr, lookupA_eraseA, lookupA_insertA]

/-- C3 witness: a concrete self-exited process is reconciled by
`is_running`. -/
theorem C3_witness :
    (is_running stExited "w").1 = false
    ∧ lookupA (is_running stExited "w").2.processes "w" = none
    ∧ lookupA (is_running stExited "w").2.errors "w"
        = some ("Process exited with code " ++ toString (2 : Int)) :=
  C3_reconciliation stExited "w" ⟨3, some 2⟩ 2 rfl rfl rfl

/-- C4: for every service name and every outcome of `stop` — graceful
exit, forced kill after timeout, the process being gone already, or a
signal-delivery failure that makes `stop` return `false` — the name is
absent from the live-process table when `stop` returns. -/
theorem C4_stop_removes_handle (out : StopOutcome) (st : ManagerState) (name : String) :
    lookupA (stop out st name).2.processes name = none :=
  stop_processes_lookup out st name

/-- C5: `stop` on a service with no live handle, or whose handle's process
has already exited, returns success and leaves no ErrorState when none
existed before the call. -/
theorem C5_stop_idempotent (out : StopOutcome) (st : ManagerState) (name : String)
    (halive : aliveIn st.processes name = false)
    (_herr : lookupA st.errors name = none) :
    (stop out st name).1 = true ∧ lookupA (stop out st name).2.errors name = none := by
  cases hl : lookupA st.processes name with
  | none => exact ⟨by simp [stop, hl], by simp [stop, hl, lookupA_eraseA]⟩
  | some proc =>
    cases hc : proc.exitCode with
    | none => simp [aliveIn, hl, hc] at halive
    | some c =>
      exact ⟨by simp [stop, hl, hc], by simp [stop, hl, hc, lookupA_eraseA]⟩

/-- C5 witness: stopping a concrete already-exited service succeeds with
no ErrorState. -/
theorem C5_witness :
    (stop .graceful stExited "w").1 = true
    ∧ lookupA (stop .graceful stExited "w").2.errors "w" = none :=
  C5_stop_idempotent .graceful stExited "w" rfl rfl

/-- C6: `get_pid` returns a PID exactly when `is_running`, evaluated on
the same state (same live-handle presence, same liveness observation),
returns `true`. -/
theorem C6_pid_iff_running (st : ManagerState) (name : String) :
    (get_pid st name).isSome = (is_running st name).1 := by
  cases hl : lookupA st.processes name with
  | none => simp [get_pid, is_running, hl]
  | some proc =>
    cases hc : proc.exitCode with
    | none => simp [get_pid, is_running, hl, hc]
    | some c => simp [get_pid, is_running, hl, hc]

/-- C7: `_extract_port` returns the digits of the first
`--port=<digits>`, `--port <digits>`, or `-p <digits>` pattern anchored at
the leftmost matching position of the command string, or `none`; in
particular the three examples of the spec evaluate as stated. -/
theorem C7_extract_port :
    (∀ command : String,
      extract_port command
        = ((List.range command.toList.length).findSome?
            (fun i => matchPortAt (command.toList.drop i))).map digitsToNat)
    ∧ extract_port "talkito --mcp-server --port=8000" = some 8000
    ∧ extract_port "run -p 9090 --verbose" = some 9090
    ∧ extract_port "noport here" = none := by
  refine ⟨fun command => ?_, by decide, by decide, by decide⟩
  rw [extract_port, searchPort_eq_first_match]

/-- C1 (amended): when the flow reaches the port check (no still-alive
tracked handle, definition found), the command yields a non-zero
extractable port, and the port probe reports a blocker, `start` fails,
sets the ErrorState to `"Port <N> used by <blocker>"`, spawns no child,
and leaves the live-process table unchanged — in particular it adds no
entry, though a stale entry from an earlier exited process is not
removed. -/
theorem C1_port_conflict_blocks (host : Host) (st : ManagerState) (name : String)
    (svc : Service) (p : Nat) (blocker : String)
    (halive : aliveIn st.processes name = false)
    (hfind : find st.services name = some svc)
    (hport : extract_port svc.command = some p)
    (hpos : p ≠ 0)
    (hblock : host.portBlocker p = some blocker) :
    (start host st name).ok = false
    ∧ lookupA (start host st name).state.errors name
        = some ("Port " ++ toString p ++ " used by " ++ blocker)
    ∧ (start host st name).spawned = none
    ∧ (start host st name).state.processes = st.processes := by
  have hp0 : (p == 0) = false := by simpa using hpos
  have hstart : start host st name
      = startChecked host { st with errors := eraseA st.errors name } name svc := by
    simp [start, halive, hfind]
  rw [hstart]
  refine ⟨?_, ?_, ?_, ?_⟩ <;>
    simp [startChecked, hport, hp0, hblock, lookupA_insertA]

/-- C1 witness: a concrete blocked port makes `start` fail with the
`PortConflict` ErrorState, no spawn, and an unchanged table. -/
theorem C1_witness :
    (start hostBlocked stFresh "api").ok = false
    ∧ lookupA (start hostBlocked stFresh "api").state.errors "api"
        = some ("Port " ++ toString 9 ++ " used by " ++ "99(nginx)")
    ∧ (start hostBlocked stFresh "api").spawned = none
    ∧ (start hostBlocked stFresh "api").state.processes = stFresh.processes :=
  C1_port_conflict_blocks hostBlocked stFresh "api" ⟨"api", "run --port 9"⟩ 9 "99(nginx)"
    rfl rfl rfl (by decide) rfl

/-- C1 counterexample: with a stale handle (process already exited) still
tracked for the name, all hypotheses of the claim hold and `start` fails
on the port conflict, yet the live-process table still has an entry for
the name afterwards — the claim's "no entry afterwards" is false. -/
theorem C1_counterexample :
    aliveIn stStale.processes "web" = false
    ∧ find stStale.services "web" = some ⟨"web", "serve --port=80"⟩
    ∧ extract_port "serve --port=80" = some 80
    ∧ hostBlocked.portBlocker 80 = some "99(nginx)"
    ∧ (start hostBlocked stStale "web").ok = false
    ∧ lookupA (start hostBlocked stStale "web").state.errors "web"
        = some "Port 80 used by 99(nginx)"
    ∧ lookupA (start hostBlocked stStale "web").state.processes "web"
        = some ⟨41, some 1⟩
    ∧ lookupA (start hostBlocked stStale "web").state.processes "web" ≠ none := by
  refine ⟨by decide, by decide, by decide, rfl, by decide, by decide, by decide, by decide⟩

/-- C8 (amended): the ErrorState is cleared at the start of every `start`
attempt that passes the already-running early return and the definition
lookup — every branch from there on behaves exactly as if no prior
ErrorState existed; the already-running no-op returns success leaving any
prior ErrorState intact, and the unknown-name branch overwrites it with
`"Service not found"`.  On every successful `stop` the ErrorState is
absent afterwards. -/
theorem C8_error_clearing :
    (∀ (host : Host) (st : ManagerState) (name : String) (svc : Service),
      aliveIn st.processes name = false →
      find st.services name = some svc →
      start host st name
        = start host { st with errors := eraseA st.errors name } name)
    ∧ (∀ (host : Host) (st : ManagerState) (name : String),
      aliveIn st.processes name = false →
      find st.services name = none →
      lookupA (start host st name).state.errors name = some "Service not found")
    ∧ (∀ (out : StopOutcome) (st : ManagerState) (name : String),
      (stop out st name).1 = true →
      lookupA (stop out st name).2.errors name = none) := by
  refine ⟨?_, ?_, ?_⟩
  · intro host st name svc halive hfind
    simp only [start, halive, hfind, Bool.false_eq_true, if_false]
    rw [eraseA_idem]
  · intro host st name halive hfind
    simp [start, halive, hfind, lookupA_insertA]
  · intro out st name hok
    cases hl : lookupA st.processes name with
    | none => simp [stop, hl, lookupA_eraseA]
    | some proc =>
      cases hc : proc.exitCode with
      | some c => simp [stop, hl, hc, lookupA_eraseA]
      | none =>
        cases out with
        | otherError msg => simp [stop, hl, hc] at hok
        | graceful => simp [stop, hl, hc, lookupA_eraseA]
        | timeoutThenKill => simp [stop, hl, hc, lookupA_eraseA]
        | processGone => simp [stop, hl, hc, lookupA_eraseA]

/-- C8 witness: the three amended clauses at concrete inputs — a stopped
service with a leftover error starts identically to one with the error
already cleared; an unknown name yields `"Service not found"`; a
successful stop leaves no ErrorState. -/
theorem C8_witness :
    (start hostBenign stStopped "web"
      = start hostBenign { stStopped with errors := eraseA stStopped.errors "web" } "web")
    ∧ lookupA (start hostBenign stEmpty "ghost").state.errors "ghost"
        = some "Service not found"
    ∧ lookupA (stop .graceful stStopped "web").2.errors "web" = none :=
  ⟨C8_error_clearing.1 hostBenign stStopped "web" ⟨"web", "cmd"⟩ rfl rfl,
   C8_error_clearing.2.1 hostBenign stEmpty "ghost" rfl rfl,
   C8_error_clearing.2.2 .graceful stStopped "web" rfl⟩

/-- C8 counterexample: `start` on an already-running service with a
leftover ErrorState returns success without clearing it — so the
ErrorState is not cleared at the start of every new start attempt. -/
theorem C8_counterexample :
    (start hostBenign stRunningErr "web").ok = true
    ∧ lookupA (start hostBenign stRunningErr "web").state.errors "web"
        = some "old failure" := by
  exact ⟨by decide, by decide⟩

/-- C9: `add_service` followed by persisting and reloading the registry
yields exactly the old definition list with `{name, command}` appended —
the new record carries both arguments and sits after all previously added
entries, insertion order preserved through the save/load round trip. -/
theorem C9_round_trip (st : ManagerState) (name : String) (command : String) :
    load_config (some (add_service st name command).2)
      = st.services ++ [⟨name, command⟩] := by
  show ((st.services ++ [(⟨name, command⟩ : Service)]).map svcToJson).filterMap jsonToSvc = _
  exact filterMap_jsonToSvc_map (st.services ++ [(⟨name, command⟩ : Service)])

/-- C10: `remove_service` with an in-range index stops the service at that
index (its live handle is gone from the process table), deletes the
definition, and persists the new registry; with an out-of-range index it
changes nothing — definitions, live-process table, and persisted file are
all as before. -/
theorem C10_remove_service :
    (∀ (out : StopOutcome) (st : ManagerState) (file : Option Json) (index : Int)
        (svc : Service),
      0 ≤ index → index < (st.services.length : Int) →
      st.services.get? index.toNat = some svc →
      (remove_service out st file index).1.services
          = st.services.eraseIdx index.toNat
      ∧ lookupA (remove_service out st file index).1.processes svc.name = none
      ∧ (remove_service out st file index).2
          = some (save_config (remove_service out st file index).1))
    ∧ (∀ (out : StopOutcome) (st : ManagerState) (file : Option Json) (index : Int),
      ¬(0 ≤ index ∧ index < (st.services.length : Int)) →
      remove_service out st file index = (st, file)) := by
  refine ⟨?_, ?_⟩
  · intro out st file index svc h0 hlen hget
    have hcond : 0 ≤ index ∧ index < (st.services.length : Int) := ⟨h0, hlen⟩
    simp only [remove_service, if_pos hcond, hget]
    refine ⟨?_, ?_, trivial⟩
    · simp [stop_services]
    · simpa using stop_processes_lookup out st svc.name
  · intro out st file index h
    simp [remove_service, h]

/-- C10 witness: removing the in-range index 1 of a concrete two-service
registry stops service `"b"` and persists the shortened list; the
out-of-range index 5 changes nothing. -/
theorem C10_witness :
    ((remove_service .graceful stTwo none 1).1.services
        = stTwo.services.eraseIdx (1 : Int).toNat
      ∧ lookupA (remove_service .graceful stTwo none 1).1.processes "b" = none
      ∧ (remove_service .graceful stTwo none 1).2
          = some (save_config (remove_service .graceful stTwo none 1).1))
    ∧ remove_service .graceful stTwo none 5 = (stTwo, none) :=
  ⟨C10_remove_service.1 .graceful stTwo none 1 ⟨"b", "y"⟩
      (by decide) (by decide) rfl,
   C10_remove_service.2 .graceful stTwo none 5 (by decide)⟩

end SvcMgr
